import Mathlib

/-
Verification of the drawing-session core of the `theo` crate.

The development shallowly embeds the parts of `src/lib.rs`, `src/swrast.rs`,
`src/desktop_gl.rs` and `src/wgpu.rs` that the claims are about: the error
type, the software rasterizer's render-state stack (save/restore/transform/
clip), its error slot, the backend registry and fallback selector generated
by the `make_dispatch!` macro, the per-thread exclusivity guard of
`RenderContext::new`, the GL context scope guard, and the resource-tag
dispatch behaviour of the drawing calls.

Machine floating point (`f64`) is embedded as `ℚ`; the claims checked here
concern control flow and algebraic structure, not rounding.  Calls into
external crates (`glutin`, `wgpu`, `tiny-skia` rasterization) are modelled
as explicit outcome parameters or, for `tiny-skia`'s clip-mask operations,
as point-set functions following their documented semantics; everything
else is translated directly from the repository's source.
-/

namespace Theo

/-- Embedding of the `piet::Error` variants that `theo`'s source constructs.
`backendError` carries the message string (`Error::BackendError`). -/
inductive TheoError where
  | invalidInput
  | stackUnbalance
  | notSupported
  | backendError (msg : String)
deriving DecidableEq, Repr

/-- The message of the concurrency error built in `RenderContext::new`
(src/lib.rs, `make_dispatch!`). -/
def concurrencyMsg : String := "Only one context can be active per thread."

/-- The `Display` message of `SwitchToSwrast` (src/lib.rs). -/
def switchToSwrastMsg : String :=
  "Switching to software rendering, this may cause lower performance"

/-- Embedding of `kurbo::Affine` with rational coefficients.  `kurbo`
stores `[a, b, c, d, e, f]` mapping `(x, y)` to
`(a*x + c*y + e, b*x + d*y + f)`. -/
structure QAffine where
  a : ℚ
  b : ℚ
  c : ℚ
  d : ℚ
  e : ℚ
  f : ℚ
deriving DecidableEq, Repr

/-- `Affine::IDENTITY`. -/
def QAffine.identity : QAffine := ⟨1, 0, 0, 1, 0, 0⟩

/-- Composition `t * u` of affine maps as in `kurbo` (`u` is applied to the
point first, then `t`). -/
def QAffine.comp (t u : QAffine) : QAffine :=
  { a := t.a * u.a + t.c * u.b
    b := t.b * u.a + t.d * u.b
    c := t.a * u.c + t.c * u.d
    d := t.b * u.c + t.d * u.d
    e := t.a * u.e + t.c * u.f + t.e
    f := t.b * u.e + t.d * u.f + t.f }

/-- Application of an affine map to a point. -/
def QAffine.apply (t : QAffine) (p : ℚ × ℚ) : ℚ × ℚ :=
  (t.a * p.1 + t.c * p.2 + t.e, t.b * p.1 + t.d * p.2 + t.f)

/-- `Affine::translate((x, y))`. -/
def QAffine.translate (x y : ℚ) : QAffine := ⟨1, 0, 0, 1, x, y⟩

namespace Swrast

/-- A flattened path: the list of the points fed to tiny-skia's
`PathBuilder` by `convert_shape` (src/swrast.rs).  The curve-flattening
performed by `kurbo::Shape::path_elements` is external to the repository,
so a shape is represented by its flattened point list. -/
abbrev Path : Type := List (ℚ × ℚ)

/-- A clip mask as a point-set: `tiny_skia::ClipMask` queried pointwise. -/
abbrev Mask : Type := (ℚ × ℚ) → Bool

/-- Embedding of `RenderState` (src/swrast.rs): current transform and
optional clip mask. -/
structure RenderState where
  transform : QAffine
  clip : Option Mask

/-- `RenderState::default()`: identity transform and no clip
(src/swrast.rs lines 102-109). -/
def RenderState.default : RenderState :=
  { transform := QAffine.identity, clip := none }

/-- The initial stack `TinyVec::from([Default::default()])` built by
`RenderContext::new` (src/swrast.rs line 258).  The stack is embedded as a
list whose HEAD is the top frame; `TinyVec` pushes and pops at the back
and reads the top with `last()`, which corresponds to the head here. -/
def initialStates : List RenderState := [RenderState.default]

/-- `RenderContext::save` (src/swrast.rs lines 574-577): the source pushes
`Default::default()` onto the stack. -/
def save (stack : List RenderState) : List RenderState :=
  RenderState.default :: stack

/-- `RenderContext::restore` (src/swrast.rs lines 579-586): fails with
`Error::StackUnbalance` if at most one frame remains, otherwise pops the
top frame.  Returns the result together with the stack afterwards. -/
def restore (stack : List RenderState) :
    Except TheoError Unit × List RenderState :=
  if stack.length ≤ 1 then (.error .stackUnbalance, stack)
  else (.ok (), stack.tail)

/-- `render_states.last()` as used by `current_state` (src/swrast.rs):
the top frame.  The stack is never empty in the source, so the default
frame returned for `[]` is unreachable there. -/
def currentState (stack : List RenderState) : RenderState :=
  stack.headD RenderState.default

/-- `RenderContext::current_transform` (src/swrast.rs lines 767-769). -/
def currentTransform (stack : List RenderState) : QAffine :=
  (currentState stack).transform

/-- `RenderContext::transform` (src/swrast.rs lines 604-607):
`state.transform = transform * state.transform` on the top frame. -/
def transformBy (t : QAffine) (stack : List RenderState) :
    List RenderState :=
  match stack with
  | [] => []
  | s :: rest => { s with transform := QAffine.comp t s.transform } :: rest

/-- `convert_shape` (src/swrast.rs lines 889-938) restricted to what it
does with points: every point of the shape is mapped through the given
transform (or left alone when the transform is absent). -/
def convertShape (transform : Option QAffine) (shape : Path) : Path :=
  shape.map fun pt =>
    match transform with
    | some t => t.apply pt
    | none => pt

/-- Membership of a point in the `width`-by-`height` pixmap. -/
def inBounds (width height : ℚ) (pt : ℚ × ℚ) : Bool :=
  decide (0 ≤ pt.1) && decide (pt.1 < width) &&
    decide (0 ≤ pt.2) && decide (pt.2 < height)

/-- Semantics of `tiny_skia::ClipMask::set_path` (external collaborator):
the resulting mask contains the points of the rasterized path that lie in
the pixmap.  `raster` is the abstract rasterizer assigning a point set to
a path. -/
def maskSetPath (width height : ℚ) (raster : Path → Mask) (p : Path) :
    Mask :=
  fun pt => inBounds width height pt && raster p pt

/-- Semantics of `tiny_skia::ClipMask::intersect_path` (external
collaborator): intersect the current mask with the rasterized path. -/
def maskIntersectPath (raster : Path → Mask) (m : Mask) (p : Path) :
    Mask :=
  fun pt => m pt && raster p pt

/-- `RenderContext::clip` (src/swrast.rs lines 434-465): the shape is
converted with the CURRENT top-frame transform; an empty path
(`builder.finish()` returning `None`) leaves the state unchanged;
otherwise the top frame's clip becomes the intersection with the existing
mask, or a fresh mask over the surface when no clip was set. -/
def clip (width height : ℚ) (raster : Path → Mask) (shape : Path)
    (stack : List RenderState) : List RenderState :=
  match stack with
  | [] => []
  | s :: rest =>
    let path := convertShape (some s.transform) shape
    if path.isEmpty then s :: rest
    else
      let newClip :=
        match s.clip with
        | some m => some (maskIntersectPath raster m path)
        | none => some (maskSetPath width height raster path)
      { s with clip := newClip } :: rest

/-- Whether the current clip admits a point: drawing calls pass
`state.clip.as_ref()` to tiny-skia, and an absent clip admits
everything. -/
def clipAllows (stack : List RenderState) (pt : ℚ × ℚ) : Bool :=
  match (currentState stack).clip with
  | none => true
  | some m => m pt

/-- The `last_error` slot of the software rasterizer's `RenderContext`
(src/swrast.rs line 82). -/
structure ErrorSlot where
  lastError : Except TheoError Unit

/-- The failure branch of the `leap!` macro (src/swrast.rs lines 216-236):
`$self.last_error = Err(err)` — the slot is overwritten
unconditionally. -/
def leapRecord (_s : ErrorSlot) (e : TheoError) : ErrorSlot :=
  { lastError := .error e }

/-- `RenderContext::status` (src/swrast.rs lines 344-346):
`mem::replace(&mut self.last_error, Ok(()))` — returns the slot and
resets it. -/
def status (s : ErrorSlot) : Except TheoError Unit × ErrorSlot :=
  (s.lastError, { lastError := .ok () })

/-- The fallible part of `swrast::RenderContext::new` (src/swrast.rs lines
239-262): zero width or height is `Error::InvalidInput`; otherwise the
session starts with the singleton state stack and a clean error slot. -/
def contextNew (width height : Nat) :
    Except TheoError (List RenderState × ErrorSlot) :=
  if width = 0 || height = 0 then .error .invalidInput
  else .ok (initialStates, { lastError := .ok () })

end Swrast

/-- Embedding of `DisplayBuilder` (src/lib.rs lines 269-297) restricted to
the fields the claims depend on.  `Default` sets `transparent = true` and
`force_swrast = false`. -/
structure DisplayBuilder where
  transparent : Bool
  forceSwrast : Bool
deriving DecidableEq, Repr

/-- `DisplayBuilder::default()`. -/
def DisplayBuilder.default : DisplayBuilder :=
  { transparent := true, forceSwrast := false }

namespace Wgpu

/-- The wgpu backend display (src/wgpu.rs), restricted to the field the
claims read. -/
structure DisplayModel where
  supportsTransparency : Bool
deriving DecidableEq, Repr

/-- `wgpu::Display::new` (src/wgpu.rs lines 99-120): refuses with the
`SwitchToSwrast` backend error when `force_swrast` is set; the rest of the
constructor (`wgpu::Instance::new` and the struct literal) is
infallible. -/
def displayNew (b : DisplayBuilder) : Except TheoError DisplayModel :=
  if b.forceSwrast then .error (.backendError switchToSwrastMsg)
  else .ok { supportsTransparency := b.transparent }

end Wgpu

namespace DesktopGl

/-- The GL backend display state (src/desktop_gl.rs lines 44-58):
`context` is the idle "not current" slot holding the native
`NotCurrentContext`, `renderer` the cached `GlContext`. -/
structure DisplayState where
  context : Option Unit
  renderer : Option Unit
deriving DecidableEq, Repr

/-- `desktop_gl::Display::new` (src/desktop_gl.rs lines 94-198): refuses
with the `SwitchToSwrast` backend error when `force_swrast` is set;
everything after that check goes through `glutin` (display, config and
context creation), whose outcome is the `glutinInit` parameter.  On
success the context sits in the idle slot and no renderer is cached
yet. -/
def displayNew (b : DisplayBuilder) (glutinInit : Except TheoError Unit) :
    Except TheoError DisplayState :=
  if b.forceSwrast then .error (.backendError switchToSwrastMsg)
  else
    match glutinInit with
    | .error e => .error e
    | .ok _ => .ok { context := some (), renderer := none }

/-- The outcome of opening a GL session, together with the display state
it leaves behind.  `panicked` is the `context.take().unwrap()` on an
empty slot. -/
inductive NewOutcome where
  | session (d : DisplayState)
  | errored (e : TheoError) (d : DisplayState)
  | panicked
deriving DecidableEq, Repr

/-- `desktop_gl::RenderContext::new_impl` (src/desktop_gl.rs lines
259-320) as a transition on the display state.  The native context is
taken from the slot (`context.take().unwrap()`); `makeCurrent` is the
outcome of `not_current_context.make_current(..)` — on its failure the
`?` operator returns BEFORE any `ContextScope` exists, so nothing
restores the slot (the source marks this with a TODO comment);
`rendererInit` is the outcome of `GlContext::new` when no renderer is
cached — on its failure the already-constructed scope is dropped, which
restores the slot. -/
def newImpl (d : DisplayState) (makeCurrent : Except TheoError Unit)
    (rendererInit : Except TheoError Unit) : NewOutcome :=
  match d.context with
  | none => .panicked
  | some _ =>
    let taken : DisplayState := { d with context := none }
    match makeCurrent with
    | .error e => .errored e taken
    | .ok _ =>
      match taken.renderer with
      | some _ => .session taken
      | none =>
        match rendererInit with
        | .error e => .errored e { taken with context := some () }
        | .ok _ => .session { taken with renderer := some () }

/-- `ContextScope::drop` (src/desktop_gl.rs lines 523-533): make the
context not current and put it back into the display's slot. -/
def scopeDrop (d : DisplayState) : DisplayState :=
  { d with context := some () }

end DesktopGl

namespace Swrast

/-- The software rasterizer display (src/swrast.rs lines 47-59),
restricted to the raw handle; text backend, path-builder cache and glyph
cache carry no information the claims read. -/
structure DisplayModel where
  raw : Unit
deriving DecidableEq, Repr

/-- `swrast::Display::new` (src/swrast.rs lines 169-182): always
succeeds. -/
def displayNew (_b : DisplayBuilder) : Except TheoError DisplayModel :=
  .ok { raw := () }

end Swrast

/-- The `DisplayDispatch` sum generated by `make_dispatch!` (src/lib.rs
lines 1408-1443) for a desktop build with the `wgpu` and `gl` features:
the variants in declaration order. -/
inductive DisplayDispatch where
  | wgpu (d : Wgpu.DisplayModel)
  | desktopGl (d : DesktopGl.DisplayState)
  | swRast (d : Swrast.DisplayModel)
deriving DecidableEq, Repr

/-- `DisplayBuilder::build_from_raw` as expanded by `make_dispatch!`
(src/lib.rs lines 917-946): each candidate constructor is tried in
declaration order; an `Ok` is returned at once and the remaining
candidates are skipped; an `Err` is logged and stored in `last_error`;
when no candidate succeeded the final `last_error` is returned.  The
three constructor outcomes are parameters because each `<$display>::new`
call depends on the native environment. -/
def buildFromRaw (wgpuRes : Except TheoError Wgpu.DisplayModel)
    (glRes : Except TheoError DesktopGl.DisplayState)
    (swrastRes : Except TheoError Swrast.DisplayModel) :
    Except TheoError DisplayDispatch :=
  match wgpuRes with
  | .ok d => .ok (.wgpu d)
  | .error _ =>
    match glRes with
    | .ok d => .ok (.desktopGl d)
    | .error _ =>
      match swrastRes with
      | .ok d => .ok (.swRast d)
      | .error e => .error e

/-- `build_from_raw` applied to the three backend constructors of this
build, as the program does. -/
def displayBuild (b : DisplayBuilder)
    (glutinInit : Except TheoError Unit) : Except TheoError DisplayDispatch :=
  buildFromRaw (Wgpu.displayNew b) (DesktopGl.displayNew b glutinInit)
    (Swrast.displayNew b)

/-- The shared mutable state that `RenderContext::new` may touch: the
thread-local `HAS_CONTEXT` flag (src/lib.rs lines 214-217) and the GL
display's idle context slot. -/
structure FacadeState where
  hasContext : Bool
  glSlot : Option Unit
deriving DecidableEq, Repr

/-- The facade-level session object: `check_context` records whether the
per-thread guard must be released on drop (src/lib.rs lines 768-791). -/
structure SessionModel where
  checkContext : Bool
deriving DecidableEq, Repr

/-- What a `RenderContext::new` call produces: the returned result, the
shared state afterwards, and whether a backend `<$ctx>::new` was
invoked. -/
structure NewResult where
  result : Except TheoError SessionModel
  state : FacadeState
  backendInvoked : Bool
deriving Repr

/-- `RenderContext::new` as generated by `make_dispatch!` (src/lib.rs
lines 1046-1078).  First `HAS_CONTEXT.replace(true)`; if the previous
value was `true` the concurrency error is returned at once.  Otherwise
the display and surface dispatch variants are matched: on a match the
backend constructor runs (`backendNew`, parameterized by the GL slot it
may consume), on a mismatch `Error::InvalidInput` is returned.  No path
resets the flag: only `Drop for RenderContext` does. -/
def renderContextNew (st : FacadeState) (tagsMatch : Bool)
    (backendNew : Option Unit → Except TheoError Unit × Option Unit) :
    NewResult :=
  let prev := st.hasContext
  if prev then
    { result := .error (.backendError concurrencyMsg)
      state := { st with hasContext := true }
      backendInvoked := false }
  else if tagsMatch then
    match backendNew st.glSlot with
    | (.ok _, slot2) =>
      { result := .ok { checkContext := true }
        state := { hasContext := true, glSlot := slot2 }
        backendInvoked := true }
    | (.error e, slot2) =>
      { result := .error e
        state := { hasContext := true, glSlot := slot2 }
        backendInvoked := true }
  else
    { result := .error .invalidInput
      state := { st with hasContext := true }
      backendInvoked := false }

/-- `Drop for RenderContext` (src/lib.rs lines 799-808): clears the
per-thread flag when the session was opened checked. -/
def renderContextDrop (s : SessionModel) (st : FacadeState) : FacadeState :=
  if s.checkContext then { st with hasContext := false } else st

/-- The software backend constructor seen from the facade: the zero-size
check of `swrast::RenderContext::new`; the GL slot is untouched. -/
def swrastBackendNew (width height : Nat) (slot : Option Unit) :
    Except TheoError Unit × Option Unit :=
  match Swrast.contextNew width height with
  | .ok _ => (.ok (), slot)
  | .error e => (.error e, slot)

/-- The backend tags of the dispatch sums generated by
`make_dispatch!`. -/
inductive BackendTag where
  | wgpu
  | desktopGl
  | swRast
deriving DecidableEq, Repr

/-- What a drawing call does, observably: it draws, it panics, or it logs
a warning and skips the call.  `erroredRecorded` stands for recording an
error surfaced by `status()`. -/
inductive DrawOutcome where
  | drewOk
  | panicked
  | warnedSkipped
  | erroredRecorded
deriving DecidableEq, Repr

/-- The tag of a `theo::TextLayout` (src/text.rs `TextLayoutInner`). -/
inductive TextLayoutTag where
  | glow
  | wgpuText
  | cosmic
deriving DecidableEq, Repr

/-- The brush/image tag dispatch of `fill`, `stroke`, `fill_even_odd`,
`draw_image`, `draw_image_area` and `blurred_rect` (src/lib.rs lines
1196-1208 and neighbours): matching tags delegate to the backend, the
mismatch arm is `unreachable!()`, which panics. -/
def dispatchResourceCall (ctxTag resourceTag : BackendTag) : DrawOutcome :=
  if ctxTag = resourceTag then .drewOk else .panicked

/-- `desktop_gl::RenderContext::draw_text` (src/desktop_gl.rs lines
412-423): a non-Glow layout hits an explicit panic. -/
def desktopGlDrawText (layout : TextLayoutTag) : DrawOutcome :=
  match layout with
  | .glow => .drewOk
  | _ => .panicked

/-- `wgpu::RenderContext::draw_text` (src/wgpu.rs lines 389-395): a
non-wgpu layout hits an explicit panic. -/
def wgpuDrawText (layout : TextLayoutTag) : DrawOutcome :=
  match layout with
  | .wgpuText => .drewOk
  | _ => .panicked

/-- `swrast::RenderContext::draw_text` (src/swrast.rs lines 483-489): a
non-Cosmic layout is answered by `tracing::warn!` and an early `return`
— nothing is drawn, nothing is recorded in the error slot. -/
def swrastDrawText (layout : TextLayoutTag) : DrawOutcome :=
  match layout with
  | .cosmic => .drewOk
  | _ => .warnedSkipped

/-- A drawing call fails loudly when it panics or records an error that
`status()` surfaces. -/
def failsLoudly (o : DrawOutcome) : Prop :=
  o = .panicked ∨ o = .erroredRecorded

instance (o : DrawOutcome) : Decidable (failsLoudly o) := by
  unfold failsLoudly
  infer_instance

/-- A concrete rasterizer for witnesses: the mask of a flattened path is
its set of listed points. -/
def demoRaster : Swrast.Path → Swrast.Mask :=
  fun p pt => decide (pt ∈ p)

/-- C1: the claim says `save()` pushes a frame EQUAL to the current top
frame.  The source (src/swrast.rs lines 574-577) pushes
`Default::default()` instead: after `transform(translate(1, 0))` the top
transform is `translate(1, 0)`, yet right after `save()` the current
transform is the identity and a previously set clip is gone.  Evaluation
of the embedded code at this failing input. -/
theorem save_pushes_fresh_default :
    Swrast.currentTransform
        (Swrast.transformBy (QAffine.translate 1 0) Swrast.initialStates)
      = QAffine.translate 1 0 ∧
    Swrast.currentTransform
        (Swrast.save
          (Swrast.transformBy (QAffine.translate 1 0) Swrast.initialStates))
      = QAffine.identity ∧
    QAffine.translate 1 0 ≠ QAffine.identity ∧
    ((Swrast.currentState
        (Swrast.clip 4 4 demoRaster [(1, 1)] Swrast.initialStates)).clip).isSome
      = true ∧
    ((Swrast.currentState
        (Swrast.save
          (Swrast.clip 4 4 demoRaster [(1, 1)] Swrast.initialStates))).clip).isSome
      = false := by
  refine ⟨?_, rfl, ?_, rfl, rfl⟩
  · simp only [Swrast.currentTransform, Swrast.currentState,
      Swrast.transformBy, Swrast.initialStates, Swrast.RenderState.default,
      QAffine.comp, QAffine.translate, QAffine.identity, List.headD]
    norm_num
  · intro hcontra
    have : (1 : ℚ) = 0 := congrArg QAffine.e hcontra
    norm_num at this

/-- C2: the registry tries wgpu, then desktop GL, then the software
rasterizer in this order; the first constructor that succeeds becomes the
display and the later candidates are skipped; when every candidate fails,
the returned error is the LAST candidate's error (the earlier ones are
only logged).  Stated over the candidate outcomes, which depend on the
native environment. -/
theorem build_from_raw_policy
    (wgpuRes : Except TheoError Wgpu.DisplayModel)
    (glRes : Except TheoError DesktopGl.DisplayState)
    (swrastRes : Except TheoError Swrast.DisplayModel) :
    (∀ d, wgpuRes = .ok d →
      buildFromRaw wgpuRes glRes swrastRes = .ok (.wgpu d)) ∧
    (∀ e d, wgpuRes = .error e → glRes = .ok d →
      buildFromRaw wgpuRes glRes swrastRes = .ok (.desktopGl d)) ∧
    (∀ ew eg d, wgpuRes = .error ew → glRes = .error eg →
      swrastRes = .ok d →
      buildFromRaw wgpuRes glRes swrastRes = .ok (.swRast d)) ∧
    (∀ ew eg es, wgpuRes = .error ew → glRes = .error eg →
      swrastRes = .error es →
      buildFromRaw wgpuRes glRes swrastRes = .error es) := by
  refine ⟨?_, ?_, ?_, ?_⟩ <;> intros <;> subst_vars <;> rfl

/-- Witness for C2 at concrete candidate outcomes: all three fail, the
third error is surfaced. -/
theorem build_from_raw_policy_witness :
    buildFromRaw (.error .notSupported) (.error .invalidInput)
        (.error (.backendError "buffer setup failed"))
      = .error (.backendError "buffer setup failed") :=
  (build_from_raw_policy _ _ _).2.2.2 _ _ _ rfl rfl rfl

/-- C3: the claim says the native GL context is returned to the display's
idle slot on EVERY session exit path, including errors during session
construction.  In the source (src/desktop_gl.rs lines 259-320) the
context is taken from the slot before the `ContextScope` guard exists;
when `make_current` fails, the error returns early and the slot stays
empty (the source marks this with a TODO), so the next session
construction panics on `unwrap`.  When the failure happens after the
scope exists (renderer initialization), the slot IS restored.  Evaluation
of the embedded code at the failing input. -/
theorem gl_make_current_failure_leaks_slot :
    DesktopGl.newImpl { context := some (), renderer := some () }
        (.error (.backendError "make_current failed")) (.ok ())
      = .errored (.backendError "make_current failed")
          { context := none, renderer := some () } ∧
    DesktopGl.newImpl { context := none, renderer := some () }
        (.ok ()) (.ok ()) = .panicked ∧
    (DesktopGl.scopeDrop { context := none, renderer := some () }).context
      = some () ∧
    DesktopGl.newImpl { context := some (), renderer := none }
        (.ok ()) (.error .notSupported)
      = .errored .notSupported { context := some (), renderer := none } :=
  ⟨rfl, rfl, rfl, rfl⟩

/-- C4: opening a checked session while the per-thread flag is set fails
with the concurrency error, keeps the flag set, leaves the GL display
slot untouched and never invokes a backend constructor. -/
theorem second_checked_session_rejected (st : FacadeState)
    (tagsMatch : Bool)
    (backendNew : Option Unit → Except TheoError Unit × Option Unit)
    (hflag : st.hasContext = true) :
    (renderContextNew st tagsMatch backendNew).result
      = .error (.backendError concurrencyMsg) ∧
    (renderContextNew st tagsMatch backendNew).state.hasContext = true ∧
    (renderContextNew st tagsMatch backendNew).state.glSlot = st.glSlot ∧
    (renderContextNew st tagsMatch backendNew).backendInvoked = false := by
  simp [renderContextNew, hflag]

/-- Witness for C4: a live checked session on the thread, a second
checked open against the software backend. -/
theorem second_checked_session_rejected_witness :
    (renderContextNew { hasContext := true, glSlot := some () } true
        (swrastBackendNew 100 100)).result
      = .error (.backendError concurrencyMsg) ∧
    (renderContextNew { hasContext := true, glSlot := some () } true
        (swrastBackendNew 100 100)).state.glSlot = some () := by
  have h := second_checked_session_rejected
    { hasContext := true, glSlot := some () } true (swrastBackendNew 100 100)
    rfl
  exact ⟨h.1, h.2.2.1⟩

/-- C5 counterexample: the claim says `status()` returns the FIRST
unreported error.  In the source the `leap!` macro overwrites
`last_error` unconditionally, so after recording `NotSupported` and then
`StackUnbalance`, `status()` returns `StackUnbalance`, not the first
error. -/
theorem status_first_error_counterexample :
    (Swrast.status
        (Swrast.leapRecord
          (Swrast.leapRecord { lastError := .ok () } .notSupported)
          .stackUnbalance)).1
      = .error .stackUnbalance ∧
    (Except.error TheoError.stackUnbalance : Except TheoError Unit)
      ≠ .error .notSupported := by
  refine ⟨rfl, ?_⟩
  simp

/-- C5 amended: `status()` returns the MOST RECENTLY recorded unreported
error (each recording overwrites the slot, last error wins), and the slot
is reset to `Ok` once read, so a second `status()` reports nothing. -/
theorem status_returns_last_recorded (s : Swrast.ErrorSlot)
    (e : TheoError) :
    (Swrast.status (Swrast.leapRecord s e)).1 = .error e ∧
    ((Swrast.status (Swrast.leapRecord s e)).2).lastError = .ok () ∧
    (Swrast.status ((Swrast.status (Swrast.leapRecord s e)).2)).1
      = .ok () :=
  ⟨rfl, rfl, rfl⟩

/-- C6 counterexample: the claim says every tag mismatch fails loudly
(panics or surfaces an error).  The software backend's `draw_text`
(src/swrast.rs lines 483-489) answers a Glow-tagged layout with a log
warning and an early return: no panic, no recorded error. -/
theorem swrast_draw_text_mismatch_not_loud :
    swrastDrawText .glow = .warnedSkipped ∧
    ¬ failsLoudly (swrastDrawText .glow) := by
  decide

/-- C6 amended: a Brush or Image with a tag different from the session's
backend makes the dispatcher panic (`unreachable!()`); a mismatched
TextLayout makes the GL and wgpu backends panic, while the software
backend logs a warning and skips the call without drawing and without
recording an error. -/
theorem tag_mismatch_behavior :
    (∀ c r : BackendTag, c ≠ r → dispatchResourceCall c r = .panicked) ∧
    (∀ l : TextLayoutTag, l ≠ .glow → desktopGlDrawText l = .panicked) ∧
    (∀ l : TextLayoutTag, l ≠ .wgpuText → wgpuDrawText l = .panicked) ∧
    (∀ l : TextLayoutTag, l ≠ .cosmic →
      swrastDrawText l = .warnedSkipped ∧
        ¬ failsLoudly (swrastDrawText l)) := by
  refine ⟨?_, ?_, ?_, ?_⟩
  · intro c r hcr
    cases c <;> cases r <;> first | exact absurd rfl hcr | rfl
  · intro l hl
    cases l <;> first | exact absurd rfl hl | rfl
  · intro l hl
    cases l <;> first | exact absurd rfl hl | rfl
  · intro l hl
    cases l <;> first | exact absurd rfl hl | exact ⟨rfl, by decide⟩

/-- Witness for C6 amended, at concrete mismatched tags. -/
theorem tag_mismatch_behavior_witness :
    dispatchResourceCall .swRast .desktopGl = .panicked ∧
    desktopGlDrawText .cosmic = .panicked ∧
    wgpuDrawText .cosmic = .panicked ∧
    swrastDrawText .wgpuText = .warnedSkipped :=
  ⟨tag_mismatch_behavior.1 _ _ (by decide),
   tag_mismatch_behavior.2.1 _ (by decide),
   tag_mismatch_behavior.2.2.1 _ (by decide),
   (tag_mismatch_behavior.2.2.2 _ (by decide)).1⟩

/-- C7: `restore()` with only the base frame on the stack returns the
`StackUnbalance` error and leaves the stack (hence the base frame's
transform and clip) unchanged; `restore` never empties the stack, so at
least one frame always remains. -/
theorem restore_base_frame_fails (s : Swrast.RenderState) :
    Swrast.restore [s] = (.error .stackUnbalance, [s]) ∧
    ∀ stack : List Swrast.RenderState, stack ≠ [] →
      (Swrast.restore stack).2 ≠ [] := by
  constructor
  · rfl
  · intro stack hne
    rcases stack with _ | ⟨a, rest⟩
    · exact absurd rfl hne
    rcases rest with _ | ⟨b, rest2⟩
    · simp [Swrast.restore]
    · have hlen : ¬ (a :: b :: rest2).length ≤ 1 := by
        simp [List.length]
      simp [Swrast.restore, hlen]

/-- Witness for C7: the initial stack (just the base frame) and a stack
after one `save`. -/
theorem restore_base_frame_fails_witness :
    (Swrast.restore [Swrast.RenderState.default]).1
      = .error .stackUnbalance ∧
    (Swrast.restore (Swrast.save [Swrast.RenderState.default])).2 ≠ [] := by
  refine ⟨?_, ?_⟩
  · exact congrArg Prod.fst (restore_base_frame_fails Swrast.RenderState.default).1
  · exact (restore_base_frame_fails Swrast.RenderState.default).2
      (Swrast.save [Swrast.RenderState.default]) (by simp [Swrast.save])

/-- C9: with `force_swrast` set, the wgpu and GL candidates refuse to
construct (they return the `SwitchToSwrast` error before doing any
work), so the registry always selects the software rasterizer, whatever
the native environment would have answered. -/
theorem force_swrast_selects_software (b : DisplayBuilder)
    (glutinInit : Except TheoError Unit) (hforce : b.forceSwrast = true) :
    displayBuild b glutinInit = .ok (.swRast { raw := () }) := by
  simp [displayBuild, Wgpu.displayNew, DesktopGl.displayNew,
    Swrast.displayNew, buildFromRaw, hforce]

/-- Witness for C9: a builder with `force_swrast = true` in an
environment where glutin would have succeeded. -/
theorem force_swrast_selects_software_witness :
    displayBuild { transparent := true, forceSwrast := true } (.ok ())
      = .ok (.swRast { raw := () }) :=
  force_swrast_selects_software _ _ rfl

/-- C10: when a checked `RenderContext::new` sets the per-thread flag and
then fails before a session exists (backend constructor error such as the
software backend's zero-size check, or a display/surface variant
mismatch), the flag stays set; every later checked open on the thread
then fails with the concurrency error and does no backend work, and only
the drop of a constructed checked session clears the flag. -/
theorem failed_checked_new_leaves_flag_set (st : FacadeState)
    (backendNew : Option Unit → Except TheoError Unit × Option Unit)
    (e : TheoError) (slot2 : Option Unit)
    (hflag : st.hasContext = false)
    (hbn : backendNew st.glSlot = (.error e, slot2)) :
    (renderContextNew st true backendNew).result = .error e ∧
    (renderContextNew st true backendNew).state.hasContext = true ∧
    (renderContextNew st false backendNew).result = .error .invalidInput ∧
    (renderContextNew st false backendNew).state.hasContext = true ∧
    (∀ tm bn2,
      (renderContextNew (renderContextNew st true backendNew).state tm
          bn2).result
        = .error (.backendError concurrencyMsg) ∧
      (renderContextNew (renderContextNew st true backendNew).state tm
          bn2).backendInvoked = false) ∧
    (∀ flagState : FacadeState,
      (renderContextDrop { checkContext := true } flagState).hasContext
        = false) := by
  have hst : (renderContextNew st true backendNew).state
      = { hasContext := true, glSlot := slot2 } := by
    simp [renderContextNew, hflag, hbn]
  refine ⟨?_, ?_, ?_, ?_, ?_, ?_⟩
  · simp [renderContextNew, hflag, hbn]
  · simp [renderContextNew, hflag, hbn]
  · simp [renderContextNew, hflag]
  · simp [renderContextNew, hflag]
  · intro tm bn2
    rw [hst]
    exact ⟨by simp [renderContextNew], by simp [renderContextNew]⟩
  · intro flagState
    simp [renderContextDrop]

/-- Witness for C10: a zero-width software session poisons the thread
flag; the retry with valid sizes still fails with the concurrency
error. -/
theorem failed_checked_new_leaves_flag_set_witness :
    (renderContextNew { hasContext := false, glSlot := some () } true
        (swrastBackendNew 0 100)).result = .error .invalidInput ∧
    (renderContextNew { hasContext := false, glSlot := some () } true
        (swrastBackendNew 0 100)).state.hasContext = true ∧
    (renderContextNew
        (renderContextNew { hasContext := false, glSlot := some () } true
          (swrastBackendNew 0 100)).state true
        (swrastBackendNew 100 100)).result
      = .error (.backendError concurrencyMsg) := by
  have h := failed_checked_new_leaves_flag_set
    { hasContext := false, glSlot := some () } (swrastBackendNew 0 100)
    .invalidInput (some ()) rfl rfl
  exact ⟨h.1, h.2.1, (h.2.2.2.2.1 true (swrastBackendNew 100 100)).1⟩

/-- C8: `clip(shape)` converts the shape with the CURRENT top-frame
transform and intersects it into the top frame's clip.  Starting from a
frame without a clip, two successive `clip` calls with nonempty shapes A
and B leave the transform unchanged and produce exactly the intersection
of A's and B's rasterized regions (within the surface); and for ANY state
and shape a `clip` call never enlarges the admitted region. -/
theorem clip_intersection_and_shrink (w h : ℚ)
    (raster : Swrast.Path → Swrast.Mask) (s : Swrast.RenderState)
    (rest : List Swrast.RenderState) (A B : Swrast.Path)
    (hA : A ≠ []) (hB : B ≠ []) (hclip : s.clip = none) :
    (Swrast.currentState
        (Swrast.clip w h raster B
          (Swrast.clip w h raster A (s :: rest)))).transform
      = s.transform ∧
    (∀ pt, Swrast.clipAllows
        (Swrast.clip w h raster B
          (Swrast.clip w h raster A (s :: rest))) pt
      = (Swrast.inBounds w h pt
          && raster (Swrast.convertShape (some s.transform) A) pt
          && raster (Swrast.convertShape (some s.transform) B) pt)) ∧
    (∀ stack shape pt,
      Swrast.clipAllows (Swrast.clip w h raster shape stack) pt = true →
      Swrast.clipAllows stack pt = true) := by
  obtain ⟨a, A2, rfl⟩ : ∃ x xs, A = x :: xs := by
    cases A with
    | nil => exact absurd rfl hA
    | cons x xs => exact ⟨x, xs, rfl⟩
  obtain ⟨b, B2, rfl⟩ : ∃ x xs, B = x :: xs := by
    cases B with
    | nil => exact absurd rfl hB
    | cons x xs => exact ⟨x, xs, rfl⟩
  obtain ⟨t, c⟩ := s
  simp only at hclip
  subst hclip
  refine ⟨rfl, fun pt => rfl, ?_⟩
  intro stack shape pt hpt
  cases stack with
  | nil => rfl
  | cons s0 rest0 =>
    by_cases hemp : (Swrast.convertShape (some s0.transform) shape).isEmpty
    · simpa [Swrast.clip, hemp] using hpt
    · cases hc : s0.clip with
      | none => simp [Swrast.clipAllows, Swrast.currentState, hc]
      | some m =>
        simp [Swrast.clip, hemp, hc, Swrast.clipAllows,
          Swrast.currentState, Swrast.maskIntersectPath] at hpt ⊢
        exact hpt.1

/-- Witness for C8: two concrete clips on the fresh stack with the
point-list rasterizer; the point (1, 1) lies in both regions and is
admitted by the final clip. -/
theorem clip_intersection_and_shrink_witness :
    Swrast.clipAllows
        (Swrast.clip 4 4 demoRaster [(1, 1), (2, 2)]
          (Swrast.clip 4 4 demoRaster [(1, 1)]
            [Swrast.RenderState.default])) (1, 1) = true := by
  have h := clip_intersection_and_shrink 4 4 demoRaster
    Swrast.RenderState.default [] [(1, 1)] [(1, 1), (2, 2)]
    (by simp) (by simp) rfl
  rw [h.2.1 (1, 1)]
  simp [Swrast.inBounds, demoRaster, Swrast.convertShape, QAffine.apply,
    Swrast.RenderState.default, QAffine.identity]

end Theo
